import Mathlib

/-!
Verification development for the cleo graphics module
(`cleo/graphics.py`): the `DataLevels` color-level object and the `Map`
class built on top of it.  Python floats are modelled as rationals
(exact arithmetic) except where the code applies transcendental
functions (standard deviation, sine), which are modelled over the
reals.  numpy arrays are modelled as lists (1d), lists of lists (2d),
or total functions when only pointwise behavior matters.  A masked or
invalid (NaN) cell is modelled as `none` in an `Option` cell.
-/

namespace Cleo

/-- Colorbar extension policy, the four string values
`'neither' | 'both' | 'min' | 'max'` of `set_extend`. -/
inductive Extend where
  | neither
  | min
  | max
  | both
deriving DecidableEq

/-- `np.min` on a nonempty 1d array (the code never takes the min of an
empty data array; the `[]` case is an arbitrary default). -/
def listMin : List ℚ → ℚ
  | [] => 0
  | x :: xs => xs.foldl Min.min x

/-- `np.max` on a nonempty 1d array. -/
def listMax : List ℚ → ℚ
  | [] => 0
  | x :: xs => xs.foldl Max.max x

/-- `np.linspace(a, b, n)`: `n` evenly spaced samples from `a` to `b`
inclusive.  For `n = 1` numpy returns `[a]`; the formula below agrees
because division by zero is zero in Lean.  -/
def linspace (a b : ℚ) (n : ℕ) : List ℚ :=
  (List.range n).map (fun (i : ℕ) => a + (b - a) * (i : ℚ) / ((n : ℚ) - 1))

/-- State of a `DataLevels` object: the data array (masked-invalid cells
dropped: the getters `np.min`/`np.max` on a masked array ignore masked
entries, so `data` holds the valid values), and the five `set_*`
slots.  `set_data(None)` stores `[0., 1.]`. -/
structure DataLevels where
  data : List ℚ
  _levels : Option (List ℚ)
  _nlevels : Option ℕ
  _vmin : Option ℚ
  _vmax : Option ℚ
  _extend : Option Extend
deriving DecidableEq

namespace DataLevels

/-- `DataLevels.__init__(data, levels, nlevels, vmin, vmax, extend)`:
each argument defaults to `None`; `set_data(None)` stores `[0., 1.]`,
all other setters store their argument unchanged. -/
def init (data : Option (List ℚ) := none) (levels : Option (List ℚ) := none)
    (nlevels : Option ℕ := none) (vmin : Option ℚ := none)
    (vmax : Option ℚ := none) (extend : Option Extend := none) : DataLevels :=
  { data := data.getD [0, 1]
    _levels := levels
    _nlevels := nlevels
    _vmin := vmin
    _vmax := vmax
    _extend := extend }

/-- `set_levels`: stores the argument unchecked. -/
def set_levels (dl : DataLevels) (levels : Option (List ℚ)) : DataLevels :=
  { dl with _levels := levels }

/-- `set_vmin`: stores the argument unchecked. -/
def set_vmin (dl : DataLevels) (v : Option ℚ) : DataLevels :=
  { dl with _vmin := v }

/-- `set_vmax`: stores the argument unchecked. -/
def set_vmax (dl : DataLevels) (v : Option ℚ) : DataLevels :=
  { dl with _vmax := v }

/-- The `vmin` property: `self._vmin` if set, else `np.min(self.data)`. -/
def vmin (dl : DataLevels) : ℚ :=
  dl._vmin.getD (listMin dl.data)

/-- The `vmax` property: `self._vmax` if set, else `np.max(self.data)`. -/
def vmax (dl : DataLevels) : ℚ :=
  dl._vmax.getD (listMax dl.data)

/-- The `extend` property.  When the user did not set it, the data is
classified against the `vmax`/`vmin` properties exactly as in the
source: `both` if `max(data) > vmax and min(data) < vmin`, else `max`
if `max(data) > vmax`, else `min` if `min(data) < vmin`, else
`neither`. -/
def extend (dl : DataLevels) : Extend :=
  match dl._extend with
  | some e => e
  | none =>
    let maxd := listMax dl.data
    let mind := listMin dl.data
    if maxd > dl.vmax ∧ mind < dl.vmin then .both
    else if maxd > dl.vmax then .max
    else if mind < dl.vmin then .min
    else .neither

/-- The `levels` property.  It is state-mutating: when explicit levels
are present it first runs `set_vmin(levels[0])` and
`set_vmax(levels[-1])`, then returns them; otherwise it returns
`np.linspace(self.vmin, self.vmax, nlevels)` with `nlevels`
defaulting to 8.  The result pairs the returned array with the
updated object. -/
def levelsGet (dl : DataLevels) : List ℚ × DataLevels :=
  match dl._levels with
  | some ls =>
    (ls, (dl.set_vmin (some (ls.headD 0))).set_vmax (some (ls.getLastD 0)))
  | none =>
    let n := dl._nlevels.getD 8
    (linspace dl.vmin dl.vmax n, dl)

end DataLevels

/-! ## Map.set_data -/

/-- The target grid of a `Map`: its pixel resolution `ny` x `nx`
(`self.grid.ny`, `self.grid.nx`). -/
structure MapGrid where
  ny : ℕ
  nx : ℕ
deriving DecidableEq

/-- The result of `salem.gis.check_crs(crs)` as `Map.set_data` branches
on it: `None` (no coordinate system given or recognised), a
`salem.Grid`, or any other recognised coordinate-system object (for
which the `else` branch raises `ValueError('crs not understood')`). -/
inductive CrsArg where
  | noCrs
  | gridCrs
  | otherCrs
deriving DecidableEq

/-- The `ValueError`s `Map.set_data` can raise. -/
inductive SetDataErr where
  | not2D
  | dimMismatch
  | crsNotUnderstood
deriving DecidableEq

/-- `np.squeeze` at the level of shapes: drops every axis of size 1. -/
def squeeze (shape : List ℕ) : List ℕ :=
  shape.filter (fun d => d ≠ 1)

/-- `np.isclose(a, b, atol=1e-3)` with numpy's default relative
tolerance `rtol=1e-5`: true iff `|a - b| <= atol + rtol * |b|`. -/
def npIsClose (a b : ℚ) : Bool :=
  |a - b| ≤ 1 / 1000 + (1 / 100000) * |b|

/-- The validation performed by `Map.set_data` on a non-`None` data
argument, which depends only on the squeezed shape and the crs: 2d
check, then (no crs) the aspect-ratio sanity check
`np.isclose(shp[0]/shp[1], ny/nx, atol=1e-3)`, (grid crs) remap with
no check, (other crs) `ValueError('crs not understood')`. -/
def set_data_check (g : MapGrid) (shape : List ℕ) (crs : CrsArg) :
    Except SetDataErr Unit :=
  let shp := squeeze shape
  if shp.length ≠ 2 then .error .not2D
  else
    match crs with
    | .noCrs =>
      if ¬ npIsClose ((shp.getD 0 0 : ℚ) / (shp.getD 1 0 : ℚ))
          ((g.ny : ℚ) / (g.nx : ℚ)) then .error .dimMismatch
      else .ok ()
    | .gridCrs => .ok ()
    | .otherCrs => .error .crsNotUnderstood

/-- A 2d array whose cells are valid values (`some q`) or
masked/invalid (`none`); `np.ma.fix_invalid`, `.filled(np.NaN)` and
`np.ma.masked_invalid` all act as the identity on this
representation. -/
abbrev MaskedGrid := List (List (Option ℚ))

/-- `scipy.misc.imresize(..., interp='nearest', mode='F')` to the
target size `H x W`: nearest-neighbour index mapping, with no value
rescaling in float mode.  Output cell `(i, j)` samples input cell
`(i * h / H, j * w / W)` (integer division). -/
def imresizeNearest (inp : MaskedGrid) (H W : ℕ) : MaskedGrid :=
  let h := inp.length
  let w := (inp.headD []).length
  (List.range H).map (fun i =>
    (List.range W).map (fun j =>
      (inp.getD (i * h / H) []).getD (j * w / W) none))

/-- The data array `Map.set_data` hands to `DataLevels.set_data` on the
no-crs path for a 2d rectangular input: the same validation as
`set_data_check` on the shape `[rows, cols]`, then
`imresize(data.filled(NaN), (ny, nx), interp='nearest', mode='F')`
followed by re-masking of invalid cells. -/
def set_data_store (g : MapGrid) (data : MaskedGrid) :
    Except SetDataErr MaskedGrid := do
  let shape := [data.length, (data.headD []).length]
  match set_data_check g shape .noCrs with
  | .error e => .error e
  | .ok () => .ok (imresizeNearest data g.ny g.nx)

/-! ## Map.set_geometry -/

/-- A point of a Shapely geometry. -/
structure Pt where
  x : ℚ
  y : ℚ
deriving DecidableEq

/-- A Shapely geometry as `set_geometry` distinguishes them: a scalar
geometry (its coordinate list), or a Multi geometry (`'Multi' in
geom.type`), a list of scalar parts. -/
inductive Geometry where
  | single (coords : List Pt)
  | multi (parts : List (List Pt))
deriving DecidableEq

/-- `'Multi' in geom.type`. -/
def Geometry.isMulti : Geometry → Bool
  | .single _ => false
  | .multi _ => true

/-- `salem.gis.transform_geometry(geometry, crs, to_crs)`: transforms
every coordinate by the crs-to-grid map `f`, preserving the geometry
structure. -/
def transform_geometry (f : Pt → Pt) : Geometry → Geometry
  | .single ps => .single (ps.map f)
  | .multi parts => .multi (parts.map (List.map f))

/-- Iterating a Multi geometry (`for g in geometry`) yields its scalar
parts. -/
def Geometry.parts : Geometry → List Geometry
  | .single ps => [.single ps]
  | .multi ps => ps.map .single

/-- `Map.set_geometry` on a non-`None` geometry: transforms it to the
map grid, then appends to `self._geometries` — the transformed `geom`
in the scalar case, but the parts of the ORIGINAL `geometry` argument
in the Multi case (the source iterates `geometry`, not `geom`).  `f`
is the crs-to-grid coordinate map; per-geometry kwargs are dropped. -/
def set_geometry (f : Pt → Pt) (geometry : Geometry)
    (geometries : List Geometry) : List Geometry :=
  let geom := transform_geometry f geometry
  if geom.isMulti then geometries ++ geometry.parts
  else geometries ++ [geom]

/-! ## Map._shading_base -/

/-- Arithmetic mean of a list of reals (`0` for the empty list, as
numpy's mean of an empty array is NaN — the code never hits it). -/
noncomputable def listMeanR (l : List ℝ) : ℝ :=
  l.sum / l.length

/-- `np.std`: population standard deviation. -/
noncomputable def npStd (l : List ℝ) : ℝ :=
  Real.sqrt (((l.map (fun x => (x - listMeanR l) ^ 2)).sum) / l.length)

/-- `np.clip(x, lo, hi)`. -/
noncomputable def clipR (x lo hi : ℝ) : ℝ :=
  Max.max lo (Min.min hi x)

/-- `Map._shading_base(slope)` on a non-`None` slope array (1d view; the
operation is elementwise).  Entries at the positions
`p = np.nonzero(slope > 0)` become
`0.4 * np.sin(0.5 * pi * np.clip(slope[p] / (2 * np.std(slope)), -1, 1))`;
every other entry is left unchanged.  The result is stored in
`self.slope`. -/
noncomputable def shading_base (slope : List ℝ) : List ℝ :=
  let sd := npStd slope
  slope.map (fun s =>
    if s > 0 then 0.4 * Real.sin (0.5 * Real.pi * clipR (s / (2 * sd)) (-1) 1)
    else s)

/-! ## Map.to_rgb -/

/-- One RGBA pixel of the `toplot` image (channels 0..3). -/
structure RGBA where
  r : ℚ
  g : ℚ
  b : ℚ
  a : ℚ
deriving DecidableEq

/-- `np.clip(x, 0, 1)` over the rationals. -/
def clip01 (x : ℚ) : ℚ :=
  Max.max 0 (Min.min 1 x)

/-- The state `Map.to_rgb` reads: the manual rgb override `self._rgb`,
the image `DataLevels.to_rgb(self)` would produce (computed by the
colormap/norm machinery of `cleo.colors`, external to this module and
kept abstract as a field), the stored shading array `self.slope` and
`self.relief_factor`.  Images and the slope are modelled pointwise as
functions of the pixel index. -/
structure MapRgbState where
  _rgb : Option (ℕ → ℕ → RGBA)
  dataLevelsRgb : ℕ → ℕ → RGBA
  slope : Option (ℕ → ℕ → ℚ)
  relief_factor : ℚ

/-- `Map.to_rgb`: starts from `self._rgb` if set, else from
`DataLevels.to_rgb(self)`; then, when `self.slope` is not `None`, sets
`level = 1.0 - 0.1 * relief_factor`,
`sens = 1 + 0.7 * relief_factor * slope`, and overwrites each of
channels 0, 1, 2 with `np.clip(level * channel * sens, 0, 1)`,
leaving channel 3 (alpha) untouched. -/
def Map.to_rgb (m : MapRgbState) : ℕ → ℕ → RGBA :=
  let toplot := m._rgb.getD m.dataLevelsRgb
  match m.slope with
  | none => toplot
  | some sl => fun i j =>
    let level := 1 - (1 / 10) * m.relief_factor
    let sens := 1 + (7 / 10) * m.relief_factor * sl i j
    let c := toplot i j
    { r := clip01 (level * c.r * sens)
      g := clip01 (level * c.g * sens)
      b := clip01 (level * c.b * sens)
      a := c.a }

/-! ## Map.set_topography -/

/-- How a call to `Map.set_topography` leaves the `geotiff` argument
handling: `os.path.splitext(None)` raises `TypeError`; an extension
other than `.tif` raises
`ValueError('File extension not recognised: ...')`; a `.tif` path
proceeds to the external GeoTiff/regrid pipeline (salem and file
input, outside this module), kept abstract as an outcome. -/
inductive TopoOutcome where
  | raisesTypeError
  | raisesExtError (ext : String)
  | loadsGeoTiff (path : String)
deriving DecidableEq

/-- `os.path.splitext(path)[1].lower()` for the paths this module
feeds it: the extension starting at the last dot, in lower case
(empty when there is no dot). -/
def extLower (s : String) : String :=
  match (s.toList.reverse.takeWhile (fun c => c ≠ '.')).length + 1 with
  | n => if s.toList.contains '.' then
      (String.mk (s.toList.drop (s.length - n))).toLower
    else ""

/-- `Map.set_topography(geotiff)` restricted to what the source decides
locally: when `geotiff is None` it resets `self.slope` to `None` via
`self._shading_base()` but does NOT return, falling through to
`os.path.splitext(geotiff)` which raises `TypeError` on `None`.
Otherwise the slope state is untouched at this stage and the path is
dispatched on its extension.  Returns the new `self.slope`-is-set
state (`Option` of the slope array kept abstract as a unit) together
with the outcome. -/
def set_topography (geotiff : Option String) (slope0 : Option Unit) :
    Option Unit × TopoOutcome :=
  match geotiff with
  | none => (none, .raisesTypeError)
  | some path =>
    if extLower path = ".tif" then (slope0, .loadsGeoTiff path)
    else (slope0, .raisesExtError (extLower path))

/-- A concrete crs-to-grid coordinate transformation (a translation),
used to exhibit behavior of `set_geometry` at a concrete input. -/
def shiftPt (p : Pt) : Pt :=
  ⟨p.x + 1, p.y + 1⟩

/-- A concrete slope array for the `Map.to_rgb` shading step. -/
def exampleSlope : ℕ → ℕ → ℚ :=
  fun _ _ => 1

/-- A concrete `Map` rgb state with a manual rgb image (channel values
partly outside `[0, 1]` to exercise the clamp), a shading array and
the default relief factor. -/
def exampleShadedMap : MapRgbState :=
  { _rgb := some (fun _ _ => ⟨2, 1 / 2, -1, 1⟩)
    dataLevelsRgb := fun _ _ => ⟨0, 0, 0, 0⟩
    slope := some exampleSlope
    relief_factor := 7 / 10 }

/-! ## Helper lemmas -/

theorem foldl_max_gt_iff (xs : List ℚ) (a v : ℚ) :
    xs.foldl Max.max a > v ↔ a > v ∨ ∃ x ∈ xs, x > v := by
  induction xs generalizing a with
  | nil => simp
  | cons x xs ih =>
    simp only [List.foldl_cons, ih, lt_max_iff, List.mem_cons]
    constructor
    · rintro (⟨h | h⟩ | ⟨y, hy, hv⟩)
      · exact Or.inl h
      · exact Or.inr ⟨x, Or.inl rfl, h⟩
      · exact Or.inr ⟨y, Or.inr hy, hv⟩
    · rintro (h | ⟨y, rfl | hy, hv⟩)
      · exact Or.inl (Or.inl h)
      · exact Or.inl (Or.inr hv)
      · exact Or.inr ⟨y, hy, hv⟩

theorem foldl_min_lt_iff (xs : List ℚ) (a v : ℚ) :
    xs.foldl Min.min a < v ↔ a < v ∨ ∃ x ∈ xs, x < v := by
  induction xs generalizing a with
  | cons x xs ih =>
    simp only [List.foldl_cons, ih, min_lt_iff, List.mem_cons]
    constructor
    · rintro (⟨h | h⟩ | ⟨y, hy, hv⟩)
      · exact Or.inl h
      · exact Or.inr ⟨x, Or.inl rfl, h⟩
      · exact Or.inr ⟨y, Or.inr hy, hv⟩
    · rintro (h | ⟨y, rfl | hy, hv⟩)
      · exact Or.inl (Or.inl h)
      · exact Or.inl (Or.inr hv)
      · exact Or.inr ⟨y, hy, hv⟩
  | nil => simp

theorem listMax_gt_iff (l : List ℚ) (hl : l ≠ []) (v : ℚ) :
    listMax l > v ↔ ∃ x ∈ l, x > v := by
  match l with
  | [] => exact absurd rfl hl
  | x :: xs =>
    simp only [listMax, foldl_max_gt_iff, List.mem_cons]
    constructor
    · rintro (h | ⟨y, hy, hv⟩)
      · exact ⟨x, Or.inl rfl, h⟩
      · exact ⟨y, Or.inr hy, hv⟩
    · rintro ⟨y, rfl | hy, hv⟩
      · exact Or.inl hv
      · exact Or.inr ⟨y, hy, hv⟩

theorem listMin_lt_iff (l : List ℚ) (hl : l ≠ []) (v : ℚ) :
    listMin l < v ↔ ∃ x ∈ l, x < v := by
  match l with
  | [] => exact absurd rfl hl
  | x :: xs =>
    simp only [listMin, foldl_min_lt_iff, List.mem_cons]
    constructor
    · rintro (h | ⟨y, hy, hv⟩)
      · exact ⟨x, Or.inl rfl, h⟩
      · exact ⟨y, Or.inr hy, hv⟩
    · rintro ⟨y, rfl | hy, hv⟩
      · exact Or.inl hv
      · exact Or.inr ⟨y, hy, hv⟩

/-! ## Claim theorems -/

/-- C1: for a `DataLevels` whose extend policy was not explicitly set,
the derived `extend` property classifies the data against the
configured `vmin`/`vmax` bounds as `both` / `max` / `min` / `neither`
according to which bounds some data value crosses; an explicitly set
extend value is returned unchanged. -/
theorem c1_extend_classifies (dl : DataLevels) (hd : dl.data ≠ []) :
    (∀ e, dl._extend = some e → dl.extend = e) ∧
    (dl._extend = none →
      dl.extend =
        if (∃ x ∈ dl.data, x > dl.vmax) ∧ (∃ x ∈ dl.data, x < dl.vmin) then
          .both
        else if ∃ x ∈ dl.data, x > dl.vmax then .max
        else if ∃ x ∈ dl.data, x < dl.vmin then .min
        else .neither) := by
  constructor
  · intro e he
    simp [DataLevels.extend, he]
  · intro he
    have h1 : (listMax dl.data > dl.vmax) = (∃ x ∈ dl.data, x > dl.vmax) :=
      propext (listMax_gt_iff dl.data hd dl.vmax)
    have h2 : (listMin dl.data < dl.vmin) = (∃ x ∈ dl.data, x < dl.vmin) :=
      propext (listMin_lt_iff dl.data hd dl.vmin)
    simp only [DataLevels.extend, he, h1, h2]

/-- Witness for C1 at data `[0, 5]`, explicit `vmax = 3`: the
classification yields `max`. -/
theorem c1_extend_classifies_witness :
    (DataLevels.init (some [0, 5]) none none none (some 3) none).data ≠ [] ∧
    ((∀ e, (DataLevels.init (some [0, 5]) none none none (some 3)
        none)._extend = some e →
      (DataLevels.init (some [0, 5]) none none none (some 3) none).extend
        = e) ∧
    ((DataLevels.init (some [0, 5]) none none none (some 3) none)._extend
        = none →
      (DataLevels.init (some [0, 5]) none none none (some 3) none).extend =
        if (∃ x ∈ (DataLevels.init (some [0, 5]) none none none (some 3)
              none).data,
            x > (DataLevels.init (some [0, 5]) none none none (some 3)
              none).vmax) ∧
            (∃ x ∈ (DataLevels.init (some [0, 5]) none none none (some 3)
              none).data,
            x < (DataLevels.init (some [0, 5]) none none none (some 3)
              none).vmin) then
          .both
        else if ∃ x ∈ (DataLevels.init (some [0, 5]) none none none (some 3)
              none).data,
            x > (DataLevels.init (some [0, 5]) none none none (some 3)
              none).vmax then .max
        else if ∃ x ∈ (DataLevels.init (some [0, 5]) none none none (some 3)
              none).data,
            x < (DataLevels.init (some [0, 5]) none none none (some 3)
              none).vmin then .min
        else .neither)) :=
  ⟨by decide, c1_extend_classifies _ (by decide)⟩

/-- C10: a `DataLevels` constructed with no arguments has data
`[0.0, 1.0]`, derived `vmin = 0`, `vmax = 1`, `extend = neither`, and
its auto-generated levels are the 8 evenly spaced values from 0 to 1
(steps of 1/7). -/
theorem c10_default_instance :
    DataLevels.init.data = [0, 1] ∧
    DataLevels.init.vmin = 0 ∧
    DataLevels.init.vmax = 1 ∧
    DataLevels.init.extend = .neither ∧
    DataLevels.init.levelsGet.1 =
      [0, 1/7, 2/7, 3/7, 4/7, 5/7, 6/7, 1] := by
  refine ⟨rfl, rfl, rfl, rfl, ?_⟩
  norm_num [DataLevels.init, DataLevels.levelsGet, DataLevels.vmin,
    DataLevels.vmax, listMin, listMax, linspace, List.range_succ]

/-- Auto-generated levels are monotone non-decreasing whenever the
bounds are ordered: `np.linspace(a, b, n)` with `a ≤ b`. -/
theorem linspace_chain_le (a b : ℚ) (h : a ≤ b) (n : ℕ) :
    List.Chain' (· ≤ ·) (linspace a b n) := by
  unfold linspace
  have hba : (0 : ℚ) ≤ b - a := sub_nonneg.mpr h
  match n with
  | 0 => simp
  | 1 => simp [List.range_succ]
  | n + 2 =>
    have hpos : (0 : ℚ) < ((n + 2 : ℕ) : ℚ) - 1 := by
      push_cast
      linarith
    refine List.chain'_map_of_chain' (R := fun x y : ℕ => x ≤ y) _
      (fun x y hxy => ?_) ?_
    · have h2 : (b - a) * (x : ℚ) / (((n + 2 : ℕ) : ℚ) - 1) ≤
          (b - a) * (y : ℚ) / (((n + 2 : ℕ) : ℚ) - 1) := by
        gcongr
      linarith
    · rw [List.chain'_range_succ]
      exact fun m hm => Nat.le_succ m

/-- C3 counterexample: a freshly constructed `DataLevels` with explicit
monotonically increasing levels `[5, 10]` (and default data `[0, 1]`)
reports `vmin = 0`, not the first level `5`: the `vmin` property reads
`np.min(self.data)` until the `levels` getter has run and overwritten
`_vmin` as a side effect. -/
theorem c3_counterexample :
    (DataLevels.init none (some [5, 10]))._levels = some [5, 10] ∧
    List.Chain' (· < ·) ([5, 10] : List ℚ) ∧
    (DataLevels.init none (some [5, 10])).vmin ≠ 5 ∧
    (DataLevels.init none (some [5, 10])).vmin = 0 := by
  refine ⟨rfl, by norm_num [List.chain'_cons, List.chain'_singleton],
    by decide, by decide⟩

/-- C3 (amended): once the `levels` property has been read, the updated
object's `vmin` equals the first explicit level and its `vmax` the
last (before that read, `vmin`/`vmax` still derive from the data or
explicit overrides). -/
theorem c3_levels_set_bounds (dl : DataLevels) (ls : List ℚ)
    (hls : dl._levels = some ls) (hne : ls ≠ [])
    (hmono : List.Chain' (· < ·) ls) :
    dl.levelsGet.1 = ls ∧
    (dl.levelsGet.2).vmin = ls.headD 0 ∧
    (dl.levelsGet.2).vmax = ls.getLastD 0 := by
  simp [DataLevels.levelsGet, hls, DataLevels.set_vmin, DataLevels.set_vmax,
    DataLevels.vmin, DataLevels.vmax]

/-- Witness for C3 (amended) at levels `[5, 10]`. -/
theorem c3_levels_set_bounds_witness :
    (DataLevels.init none (some [5, 10]))._levels = some [5, 10] ∧
    ([5, 10] : List ℚ) ≠ [] ∧
    List.Chain' (· < ·) ([5, 10] : List ℚ) ∧
    ((DataLevels.init none (some [5, 10])).levelsGet.1 = [5, 10] ∧
      ((DataLevels.init none (some [5, 10])).levelsGet.2).vmin =
        ([5, 10] : List ℚ).headD 0 ∧
      ((DataLevels.init none (some [5, 10])).levelsGet.2).vmax =
        ([5, 10] : List ℚ).getLastD 0) :=
  ⟨rfl, by decide, by norm_num [List.chain'_cons, List.chain'_singleton],
    c3_levels_set_bounds _ _ rfl (by decide)
      (by norm_num [List.chain'_cons, List.chain'_singleton])⟩

/-- C8 counterexample: `set_levels` stores any list unchecked, so the
levels sequence of a `DataLevels` need not be monotonically
increasing: with explicit levels `[3, 1, 2]` the `levels` property
returns `[3, 1, 2]`, which is not increasing (nor non-decreasing). -/
theorem c8_counterexample :
    (DataLevels.init none (some [3, 1, 2])).levelsGet.1 = [3, 1, 2] ∧
    ¬ List.Chain' (· < ·)
        ((DataLevels.init none (some [3, 1, 2])).levelsGet.1) ∧
    ¬ List.Chain' (· ≤ ·)
        ((DataLevels.init none (some [3, 1, 2])).levelsGet.1) := by
  have h1 : (DataLevels.init none (some [3, 1, 2])).levelsGet.1 = [3, 1, 2] :=
    rfl
  refine ⟨h1, ?_, ?_⟩ <;> rw [h1] <;>
    norm_num [List.chain'_cons, List.chain'_singleton]

/-- C8 (amended): monotonicity of explicit levels is a documented
caller obligation, not an enforced invariant; what the code does
guarantee is that auto-generated levels (no explicit levels set) are
monotone non-decreasing whenever `vmin ≤ vmax`. -/
theorem c8_auto_levels_monotone (dl : DataLevels) (h : dl._levels = none)
    (hvm : dl.vmin ≤ dl.vmax) :
    List.Chain' (· ≤ ·) dl.levelsGet.1 := by
  simp only [DataLevels.levelsGet, h]
  exact linspace_chain_le _ _ hvm _

/-- Witness for C8 (amended): the default instance's auto levels. -/
theorem c8_auto_levels_monotone_witness :
    DataLevels.init._levels = none ∧
    DataLevels.init.vmin ≤ DataLevels.init.vmax ∧
    List.Chain' (· ≤ ·) DataLevels.init.levelsGet.1 :=
  ⟨rfl, by decide, c8_auto_levels_monotone _ rfl (by decide)⟩

theorem npIsClose_self (a : ℚ) : npIsClose a a = true := by
  simp only [npIsClose, decide_eq_true_eq, sub_self, abs_zero]
  positivity

theorem set_data_check_self_grid (g : MapGrid) (h1 : 2 ≤ g.ny)
    (h2 : 2 ≤ g.nx) : set_data_check g [g.ny, g.nx] .noCrs = .ok () := by
  have hny1 : g.ny ≠ 1 := by omega
  have hnx1 : g.nx ≠ 1 := by omega
  simp [set_data_check, squeeze, hny1, hnx1, npIsClose_self]

theorem map_range_getD_div (row : List (Option ℚ)) (W : ℕ)
    (hw : row.length = W) :
    (List.range W).map (fun j => row.getD (j * W / W) none) = row := by
  apply List.ext_getElem
  · simp [hw]
  · intro j h1 h2
    simp only [List.getElem_map, List.getElem_range]
    have hWpos : 0 < W := by omega
    rw [Nat.mul_div_cancel _ hWpos, List.getD_eq_getElem]

/-- Nearest-neighbour resampling to the array's own shape is the
identity. -/
theorem imresizeNearest_self (d : MaskedGrid) (H W : ℕ)
    (hH : d.length = H) (hW : ∀ row ∈ d, row.length = W) :
    imresizeNearest d H W = d := by
  unfold imresizeNearest
  apply List.ext_getElem
  · simp [hH]
  · intro i h1 h2
    simp only [List.getElem_map, List.getElem_range]
    have hHpos : 0 < H := by omega
    rw [hH, Nat.mul_div_cancel _ hHpos, List.getD_eq_getElem _ _ h2]
    have hrow : d[i].length = W := hW _ (List.getElem_mem h2)
    have hhead : (d.headD []).length = W := by
      match d, h2 with
      | r :: rs, _ => exact hW r (List.mem_cons_self r rs)
    rw [hhead]
    exact map_range_getD_div _ _ hrow

/-- C4 counterexample: 2d data together with a recognised
coordinate-system argument that is not a `salem.Grid` raises
`ValueError('crs not understood')`, although the claim allows errors
only for non-2d data or a missing crs with mismatched aspect ratio. -/
theorem c4_counterexample :
    set_data_check ⟨2, 2⟩ [2, 2] .otherCrs = .error .crsNotUnderstood ∧
    (squeeze [2, 2]).length = 2 ∧
    CrsArg.otherCrs ≠ .noCrs := by
  refine ⟨rfl, rfl, by decide⟩

/-- C4 (amended): `Map.set_data` on a supplied data array raises
exactly when the squeezed shape is not 2d, or when no crs is given
and the aspect ratio fails the implemented
`np.isclose(shp[0]/shp[1], ny/nx, atol=1e-3)` check, or when the crs
argument is recognised but is not a `salem.Grid` (the
`'crs not understood'` case); a grid crs never raises here. -/
theorem c4_errors_iff (g : MapGrid) (shape : List ℕ) (crs : CrsArg) :
    (∃ e, set_data_check g shape crs = .error e) ↔
      ((squeeze shape).length ≠ 2 ∨
        (crs = .noCrs ∧
          npIsClose (((squeeze shape).getD 0 0 : ℚ) /
              ((squeeze shape).getD 1 0 : ℚ))
            ((g.ny : ℚ) / (g.nx : ℚ)) = false) ∨
        crs = .otherCrs) := by
  unfold set_data_check
  by_cases h2 : (squeeze shape).length ≠ 2
  · rw [if_pos h2]
    simp [h2]
  · rw [if_neg h2]
    cases crs with
    | noCrs =>
      cases hc : npIsClose (((squeeze shape).getD 0 0 : ℚ) /
          ((squeeze shape).getD 1 0 : ℚ)) ((g.ny : ℚ) / (g.nx : ℚ)) with
      | true => simp [h2]
      | false => simp [h2]
    | gridCrs => simp [h2]
    | otherCrs => simp [h2]

/-- C7: a 2d rectangular raster whose shape equals the map grid's
shape, passed to `Map.set_data` with no crs, passes validation and is
stored unchanged: the nearest-neighbour resize to the grid's own
shape is the identity (dtype conversion and mask handling are
absorbed by the `Option`-cell representation). -/
theorem c7_same_grid_identity (g : MapGrid) (data : MaskedGrid)
    (hrows : data.length = g.ny) (hcols : ∀ row ∈ data, row.length = g.nx)
    (hny : 2 ≤ g.ny) (hnx : 2 ≤ g.nx) :
    set_data_store g data = .ok data := by
  have hd : data ≠ [] := by
    intro h
    rw [h] at hrows
    simp at hrows
    omega
  have hhead : (data.headD []).length = g.nx := by
    match data, hd with
    | r :: rs, _ => exact hcols r (List.mem_cons_self r rs)
  have hshape : [data.length, (data.headD []).length] = [g.ny, g.nx] := by
    rw [hrows, hhead]
  unfold set_data_store
  rw [hshape]
  simp only [set_data_check_self_grid g hny hnx]
  rw [imresizeNearest_self data g.ny g.nx hrows hcols]

/-- Witness for C7: a concrete 2x2 raster with one masked cell on a
2x2 grid is stored as-is. -/
theorem c7_same_grid_identity_witness :
    ([[some 1, some 2], [none, some 3]] : MaskedGrid).length =
      (MapGrid.mk 2 2).ny ∧
    (∀ row ∈ ([[some 1, some 2], [none, some 3]] : MaskedGrid),
      row.length = (MapGrid.mk 2 2).nx) ∧
    2 ≤ (MapGrid.mk 2 2).ny ∧ 2 ≤ (MapGrid.mk 2 2).nx ∧
    set_data_store ⟨2, 2⟩ [[some 1, some 2], [none, some 3]] =
      .ok [[some 1, some 2], [none, some 3]] :=
  ⟨rfl, by decide, by decide, by decide,
    c7_same_grid_identity ⟨2, 2⟩ _ rfl (by decide) (by decide) (by decide)⟩

theorem clip01_nonneg (x : ℚ) : 0 ≤ clip01 x :=
  le_max_left 0 _

theorem clip01_le_one (x : ℚ) : clip01 x ≤ 1 :=
  max_le zero_le_one (min_le_left 1 x)

/-- C2 counterexample: the stored shading array is NOT bounded for
every finite slope input: a non-positive entry is left unchanged by
`_shading_base`, so the input `[-7]` is stored as `[-7]`, outside the
`[-0.4, 0.4]` range the clamped sine-scaled formula produces. -/
theorem c2_counterexample :
    (-7 : ℝ) ∈ shading_base [-7] ∧ ¬(|(-7 : ℝ)| ≤ 2 / 5) := by
  constructor
  · have h : shading_base [-7] = [-7] := by
      unfold shading_base
      simp only [List.map_cons, List.map_nil]
      rw [if_neg (by norm_num)]
    rw [h]
    exact List.mem_singleton.mpr rfl
  · norm_num

/-- C2 (amended): `_shading_base` bounds only the entries it rewrites:
every entry of the slope array that is strictly positive is replaced
by a value of absolute value at most `0.4`; every non-positive entry
is stored unchanged (and is therefore unbounded in general). -/
theorem c2_positive_entries_bounded (slope : List ℝ) (i : ℕ) :
    (0 < slope.getD i 0 → |(shading_base slope).getD i 0| ≤ 2 / 5) ∧
    (slope.getD i 0 ≤ 0 → (shading_base slope).getD i 0 = slope.getD i 0) := by
  by_cases hi : i < slope.length
  · have hlen : i < (shading_base slope).length := by
      unfold shading_base
      simpa using hi
    have hmap : (shading_base slope).getD i 0 =
        (if slope.getD i 0 > 0 then
          0.4 * Real.sin (0.5 * Real.pi *
            clipR (slope.getD i 0 / (2 * npStd slope)) (-1) 1)
        else slope.getD i 0) := by
      rw [List.getD_eq_getElem _ _ hlen, List.getD_eq_getElem _ _ hi]
      unfold shading_base
      simp [List.getElem_map]
    constructor
    · intro hpos
      rw [hmap, if_pos hpos]
      have hs := abs_le.mpr
        ⟨Real.neg_one_le_sin (0.5 * Real.pi *
            clipR (slope.getD i 0 / (2 * npStd slope)) (-1) 1),
          Real.sin_le_one _⟩
      rw [abs_mul]
      have h04 : |(0.4 : ℝ)| = 0.4 := by norm_num
      rw [h04]
      nlinarith [abs_nonneg (Real.sin (0.5 * Real.pi *
        clipR (slope.getD i 0 / (2 * npStd slope)) (-1) 1))]
    · intro hle
      rw [hmap, if_neg (by linarith)]
  · push_neg at hi
    have h1 : slope.getD i 0 = 0 := List.getD_eq_default _ _ hi
    have h2 : (shading_base slope).getD i 0 = 0 := by
      apply List.getD_eq_default
      unfold shading_base
      simpa using hi
    rw [h1, h2]
    exact ⟨fun _ => by norm_num, fun _ => rfl⟩

/-- Witness for C2 (amended): the positive entry of `[1]` is bounded;
the non-positive entry of `[-7]` passes through. -/
theorem c2_positive_entries_bounded_witness :
    (0 < ([1] : List ℝ).getD 0 0 ∧
      |(shading_base [1]).getD 0 0| ≤ 2 / 5) ∧
    (([-7] : List ℝ).getD 0 0 ≤ 0 ∧
      (shading_base [-7]).getD 0 0 = ([-7] : List ℝ).getD 0 0) :=
  ⟨⟨by norm_num, (c2_positive_entries_bounded [1] 0).1 (by norm_num)⟩,
    ⟨by norm_num, (c2_positive_entries_bounded [-7] 0).2 (by norm_num)⟩⟩

/-- C5: with a non-`None` slope, `Map.to_rgb` multiplies the lightness
modulation `sens = 1 + 0.7 * relief_factor * slope` (together with the
global `level = 1 - 0.1 * relief_factor`) into each of the red, green
and blue channels and clamps each result to `[0, 1]`; the alpha
channel is untouched. -/
theorem c5_shading_into_channels (m : MapRgbState) (sl : ℕ → ℕ → ℚ)
    (hs : m.slope = some sl) (i j : ℕ) :
    (Map.to_rgb m i j).r =
      clip01 ((1 - (1 / 10) * m.relief_factor) *
        ((m._rgb.getD m.dataLevelsRgb) i j).r *
        (1 + (7 / 10) * m.relief_factor * sl i j)) ∧
    (Map.to_rgb m i j).g =
      clip01 ((1 - (1 / 10) * m.relief_factor) *
        ((m._rgb.getD m.dataLevelsRgb) i j).g *
        (1 + (7 / 10) * m.relief_factor * sl i j)) ∧
    (Map.to_rgb m i j).b =
      clip01 ((1 - (1 / 10) * m.relief_factor) *
        ((m._rgb.getD m.dataLevelsRgb) i j).b *
        (1 + (7 / 10) * m.relief_factor * sl i j)) ∧
    (Map.to_rgb m i j).a = ((m._rgb.getD m.dataLevelsRgb) i j).a ∧
    0 ≤ (Map.to_rgb m i j).r ∧ (Map.to_rgb m i j).r ≤ 1 ∧
    0 ≤ (Map.to_rgb m i j).g ∧ (Map.to_rgb m i j).g ≤ 1 ∧
    0 ≤ (Map.to_rgb m i j).b ∧ (Map.to_rgb m i j).b ≤ 1 := by
  simp [Map.to_rgb, hs, clip01_nonneg, clip01_le_one]

/-- Witness for C5 on a concrete shaded map at pixel `(0, 0)`. -/
theorem c5_shading_into_channels_witness :
    exampleShadedMap.slope = some exampleSlope ∧
    ((Map.to_rgb exampleShadedMap 0 0).r =
      clip01 ((1 - (1 / 10) * exampleShadedMap.relief_factor) *
        ((exampleShadedMap._rgb.getD exampleShadedMap.dataLevelsRgb) 0 0).r *
        (1 + (7 / 10) * exampleShadedMap.relief_factor *
          exampleSlope 0 0)) ∧
    (Map.to_rgb exampleShadedMap 0 0).g =
      clip01 ((1 - (1 / 10) * exampleShadedMap.relief_factor) *
        ((exampleShadedMap._rgb.getD exampleShadedMap.dataLevelsRgb) 0 0).g *
        (1 + (7 / 10) * exampleShadedMap.relief_factor *
          exampleSlope 0 0)) ∧
    (Map.to_rgb exampleShadedMap 0 0).b =
      clip01 ((1 - (1 / 10) * exampleShadedMap.relief_factor) *
        ((exampleShadedMap._rgb.getD exampleShadedMap.dataLevelsRgb) 0 0).b *
        (1 + (7 / 10) * exampleShadedMap.relief_factor *
          exampleSlope 0 0)) ∧
    (Map.to_rgb exampleShadedMap 0 0).a =
      ((exampleShadedMap._rgb.getD exampleShadedMap.dataLevelsRgb) 0 0).a ∧
    0 ≤ (Map.to_rgb exampleShadedMap 0 0).r ∧
    (Map.to_rgb exampleShadedMap 0 0).r ≤ 1 ∧
    0 ≤ (Map.to_rgb exampleShadedMap 0 0).g ∧
    (Map.to_rgb exampleShadedMap 0 0).g ≤ 1 ∧
    0 ≤ (Map.to_rgb exampleShadedMap 0 0).b ∧
    (Map.to_rgb exampleShadedMap 0 0).b ≤ 1) :=
  ⟨rfl, c5_shading_into_channels exampleShadedMap exampleSlope rfl 0 0⟩

/-- C6: the claim is right and the code is wrong.  For a Multi
geometry, `set_geometry` computes the transformed `geom` but then
appends the sub-geometries of the ORIGINAL untransformed `geometry`
argument: here the MultiPoint `[(0, 0)]` under the translation
`shiftPt` is stored as the untransformed `(0, 0)`, although the
transformed geometry is `(1, 1)`. -/
theorem c6_multi_subgeoms_untransformed :
    set_geometry shiftPt (.multi [[⟨0, 0⟩]]) [] =
      [.single [⟨0, 0⟩]] ∧
    transform_geometry shiftPt (.multi [[⟨0, 0⟩]]) =
      .multi [[⟨1, 1⟩]] ∧
    (Pt.mk 1 1) ≠ (Pt.mk 0 0) ∧
    set_geometry shiftPt (.single [⟨0, 0⟩]) [] =
      [.single [⟨1, 1⟩]] := by
  have hp : shiftPt ⟨0, 0⟩ = (⟨1, 1⟩ : Pt) := by
    simp [shiftPt, Pt.mk.injEq]
  refine ⟨by decide, ?_, by decide, ?_⟩
  · simp [transform_geometry, hp]
  · simp [set_geometry, transform_geometry, Geometry.isMulti, hp]

/-- C9: `Map.set_topography` with `geotiff=None` resets the shading
state via `self._shading_base()` but does not return: it falls
through to `os.path.splitext(geotiff)` on `None`, which raises
`TypeError`, so the call never completes normally and cannot be used
to cleanly remove topographical shading. -/
theorem c9_set_topography_none_raises (slope0 : Option Unit) :
    set_topography none slope0 = (none, .raisesTypeError) :=
  rfl

end Cleo
